import Mathlib

/-!
Verification development for the `mastodon-posting` wrapper
(`src/mastodon_api_cleaned.py`).

The development is a shallow embedding of the module's single class
`MastodonClientApp`.  YAML/Python values are modelled by `YVal`; Python
dicts carry a flag recording whether they are the library's
`AttribAccessDict` (attribute-style access works) or a plain `dict`
(attribute-style access raises `AttributeError`).  The external Mastodon
client library is modelled as a record of oracle functions
(`MastodonLib`); the filesystem holds the single configuration file as a
parsed YAML document.  Each method of the class is translated line by
line; observable interactions (registration call, login call, file
write) are recorded as an event trace so that claims about "the
collaborator is invoked" or "the file is written" can be stated.
-/

set_option autoImplicit false

namespace MastodonPosting

/-- A Python/YAML value as it occurs in the configuration document.
`map attrib entries` is a Python dict with its insertion-ordered
entries; `attrib = true` marks an `AttribAccessDict` (the subclass used
by the mastodon library, supporting attribute-style access), `attrib =
false` a plain `dict` as produced by `yaml.safe_load`. -/
inductive YVal where
  | null : YVal
  | bool : Bool → YVal
  | int : Int → YVal
  | str : String → YVal
  | list : List YVal → YVal
  | map : Bool → List (String × YVal) → YVal

/-- Statuses ("toots") returned by the collaborator are opaque dicts,
passed through unmodified by the wrapper. -/
abbrev Post := YVal

/-- The exception kinds the embedded code can raise.  `valueError` is
raised by `__init__` at lines 34, 37 and 43 (the spec's
`ConfigurationError`); `attributeError` arises from attribute lookups on
values that lack the attribute; `assertionError` from the `assert` at
line 46; `mastodonError` stands for any `MastodonError` raised by the
remote collaborator (the spec's `RemoteServiceError`). -/
inductive PyErr where
  | valueError : PyErr
  | attributeError : PyErr
  | assertionError : PyErr
  | mastodonError : PyErr
deriving DecidableEq

/-- First entry with the given key, in insertion order (Python dict lookup). -/
def lookupEntries : List (String × YVal) → String → Option YVal
  | [], _ => none
  | (k', v) :: rest, k => if k' = k then some v else lookupEntries rest k

/-- Python `d[k] = v`: replace the value of an existing key in place,
otherwise append the new key at the end (dict insertion-order semantics). -/
def setEntries : List (String × YVal) → String → YVal → List (String × YVal)
  | [], k, v => [(k, v)]
  | (k', v') :: rest, k, v =>
      if k' = k then (k, v) :: rest else (k', v') :: setEntries rest k v

/-- Python truthiness of a value: `None`, `False`, `0`, empty strings and
empty containers are falsy. -/
def truthy : YVal → Bool
  | .null => false
  | .bool b => b
  | .int n => if n = 0 then false else true
  | .str s => !s.isEmpty
  | .list xs => !xs.isEmpty
  | .map _ es => !es.isEmpty

/-- Truthiness of the `base_url : str | None` parameter. -/
def truthyOpt : Option String → Bool
  | none => false
  | some s => !s.isEmpty

/-- Python `x is None`. -/
def isNull : YVal → Bool
  | .null => true
  | _ => false

/-- Python `isinstance(v, dict)` (`AttribAccessDict` is a `dict` subclass). -/
def isMap : YVal → Bool
  | .map _ _ => true
  | _ => false

/-- The `base_url` parameter as the Python value stored into the config. -/
def optStr : Option String → YVal
  | none => .null
  | some s => .str s

/-- Python attribute access `x.name` for the data attributes this module
reads off configuration values (`instance`, `base_url`, `id`, ...): on an
`AttribAccessDict` it returns the entry when present and raises
`AttributeError` when absent; on a plain `dict` or any non-dict value
such a data attribute does not exist, so the access raises
`AttributeError`. -/
def getattr : YVal → String → Except PyErr YVal
  | .map true es, k =>
      match lookupEntries es k with
      | some v => .ok v
      | none => .error .attributeError
  | _, _ => .error .attributeError

/-- Python `d.get(k, default)`: the `get` method exists on dicts of
either kind; on a non-dict value the lookup of the `get` attribute
raises `AttributeError`. -/
def pyget : YVal → String → YVal → Except PyErr YVal
  | .map _ es, k, dflt => .ok ((lookupEntries es k).getD dflt)
  | _, _, _ => .error .attributeError

/-- Python `d[k] = v` on a dict, preserving its kind.  In this module it
is only ever applied to `self.config`, which is always a dict, so the
non-dict case is unreachable and returns the value unchanged. -/
def setKey : YVal → String → YVal → YVal
  | .map a es, k, v => .map a (setEntries es k v)
  | other, _, _ => other

/-- The body of the loop in `_load_config` (lines 183-186): a top-level
value that is a dict is re-created as an `AttribAccessDict` with the
same entries (the constructor copies the entries, leaving every nested
value untouched); any other value is left as is. -/
def wrapTop : YVal → YVal
  | .map _ es => .map true es
  | v => v

/-- `_load_config` (lines 178-188): the parsed YAML document (`none` for
an empty file, which `yaml.safe_load` returns as Python `None`) is
defaulted to an empty dict, each top-level dict value is wrapped into an
`AttribAccessDict`, and the whole document is wrapped into an
`AttribAccessDict`.  When the document is not a dict at all,
`data.items()` raises `AttributeError`. -/
def load_config : Option YVal → Except PyErr YVal
  | none => .ok (.map true [])
  | some (.map _ es) => .ok (.map true (es.map (fun kv => (kv.1, wrapTop kv.2))))
  | some _ => .error .attributeError

/-- The first-run test of `__init__` line 45:
`self.config.get("application", dict()).get("client_id", None)`. -/
def client_id_lookup (config : YVal) : Except PyErr YVal :=
  match pyget config "application" (.map false []) with
  | .error e => .error e
  | .ok appSection => pyget appSection "client_id" .null

/-- Whether a top-level key is present in the configuration dict. -/
def hasKey (config : YVal) (k : String) : Bool :=
  match config with
  | .map _ es => (lookupEntries es k).isSome
  | _ => false

/-- The arguments of the `Mastodon(...)` constructor call in `connect`
(lines 111-114). -/
structure MastodonInit where
  client_id : String
  api_base_url : YVal

/-- The arguments of the `mastodon.log_in(...)` call in `connect`
(lines 116-120): a positional username, a password and a credential
file name. -/
structure LoginCall where
  username : String
  password : String
  to_file : String

/-- The keyword arguments of the `mastodon.account_statuses(...)` call
in `get_statuses` (lines 164-175). -/
structure StatusRequest where
  id : YVal
  only_media : Bool
  pinned : Bool
  exclude_replies : Bool
  exclude_reblogs : Bool
  tagged : Option String
  max_id : Option Int
  min_id : Option Int
  since_id : Option Int
  limit : Int

/-- The arguments actually passed to `mastodon.status_post(...)` in
`post_toot` (lines 206-214).  A field holding `none` for an optional
argument means the keyword is passed as Python `None`; `sensitive`,
`spoiler_text` and `scheduled_at` are commented out in the source, i.e.
never supplied. -/
structure PostRequest where
  status : String
  in_reply_to_id : Option Int
  sensitive : Option Bool
  visibility : String
  spoiler_text : Option String
  language : Option String
  scheduled_at : Option String

/-- Modelled from the spec: the `Message` dataclass consumed by
`post_toot` is referenced but not included in the provided source; per
the spec (§3, OutgoingMessage) it holds the text, an optional
reply-target id and the visibility. -/
structure Message where
  text : String
  in_reply_to_id : Option Int
  visibility : String

/-- The external Mastodon client library, as an oracle of collaborator
behaviours.  Each operation may raise (modelled by `Except`). -/
structure MastodonLib where
  register_application : YVal → Except PyErr (String × String)
  log_in : MastodonInit → LoginCall → Except PyErr YVal
  me : MastodonInit → Except PyErr YVal
  account_statuses : MastodonInit → StatusRequest → Except PyErr (List Post)
  status_post : MastodonInit → PostRequest → Except PyErr Post

/-- Observable interactions of one run: an application-registration
call, a login call, or a write of the configuration file. -/
inductive Event where
  | registerCall : YVal → Event
  | loginCall : MastodonInit → LoginCall → Event
  | fileWrite : YVal → Event

/-- The configuration file on disk: absent, or present with its parsed
YAML document (`none` = empty file). -/
inductive FileState where
  | absent : FileState
  | present : Option YVal → FileState

/-- The filesystem as far as this module sees it: whether the
configuration directory exists, and the state of the configuration file
inside it. -/
structure FS where
  dirExists : Bool
  file : FileState

/-- The instance attributes of a `MastodonClientApp` object.  `none`
means the attribute has never been assigned, so reading it raises
`AttributeError`.  `__init__` assigns `config`, `connect` assigns
`mastodon` and `user`; the attribute `data` is never assigned anywhere
in the class. -/
structure App where
  config : YVal
  mastodon : Option MastodonInit := none
  user : Option YVal := none
  data : Option YVal := none

/-- Outcome of one `__init__` run: the result (the constructed object,
or the exception that propagated), the trace of observable events in
order, and the final state of the configuration file. -/
structure InitResult where
  result : Except PyErr App
  events : List Event
  file : FileState

/-- The literal credentials of the `log_in` call in `connect` (lines
116-120): placeholders hardcoded in the source, not read from the
configuration. -/
def hardcoded_login : LoginCall :=
  { username := "<email>", password := "<password>",
    to_file := "my-application-usercred.secret" }

/-- `connect` (lines 110-121): construct the library handle from a
hardcoded client-credential file and `self.config.instance.base_url`,
log in with the hardcoded email/password, and store the library's own
account (`mastodon.me()`) in `self.user`.  The result of `log_in` is
bound to a local variable and otherwise unused. -/
def connect (lib : MastodonLib) (app : App) : Except PyErr App × List Event :=
  match getattr app.config "instance" with
  | .error e => (.error e, [])
  | .ok inst =>
    match getattr inst "base_url" with
    | .error e => (.error e, [])
    | .ok bu =>
      let m : MastodonInit :=
        { client_id := "my-application-clientcred.secret", api_base_url := bu }
      match lib.log_in m hardcoded_login with
      | .error e => (.error e, [.loginCall m hardcoded_login])
      | .ok _tok =>
        match lib.me m with
        | .error e => (.error e, [.loginCall m hardcoded_login])
        | .ok u =>
          (.ok { app with mastodon := some m, user := some u },
           [.loginCall m hardcoded_login])

/-- Modelled from the spec: `register_app` is invoked by `__init__`
(line 49) but its body is not included in the provided source.  Per the
spec (§4.1 step 3 and §6), it invokes the external registration
collaborator with the instance base URL to obtain
`client_id`/`client_secret` and stores them into the `application`
section of the configuration. -/
def register_app (lib : MastodonLib) (config : YVal) :
    Except PyErr YVal × List Event :=
  match getattr config "instance" with
  | .error e => (.error e, [])
  | .ok inst =>
    match getattr inst "base_url" with
    | .error e => (.error e, [])
    | .ok bu =>
      match lib.register_application bu with
      | .error e => (.error e, [.registerCall bu])
      | .ok cs =>
        (.ok (setKey config "application"
              (.map true [("client_id", .str cs.1), ("client_secret", .str cs.2)])),
         [.registerCall bu])

/-- `_save_config` (lines 190-198): serialize `self.data` with
`yaml.safe_dump` and overwrite the configuration file with the output.
The instance attribute `data` is never assigned anywhere in the class,
so the read of `self.data` raises `AttributeError` before anything is
written.  The file layer stores parsed documents, so a successful write
would store the dumped document itself. -/
def save_config (app : App) (file : FileState) :
    Except PyErr Unit × List Event × FileState :=
  match app.data with
  | none => (.error .attributeError, [], file)
  | some d => (.ok (), [.fileWrite d], .present (some d))

/-- Lines 51-56 of `__init__`: default the `user` section when falsy,
call `connect`, then `_save_config`.  `ev` is the event trace
accumulated by the earlier steps. -/
def finish_init (lib : MastodonLib) (config : YVal) (ev : List Event)
    (file : FileState) : InitResult :=
  match pyget config "user" .null with
  | .error e => { result := .error e, events := ev, file := file }
  | .ok uval =>
    let config1 := if truthy uval then config else setKey config "user" (.map true [])
    match connect lib { config := config1 } with
    | (.error e, cev) => { result := .error e, events := ev ++ cev, file := file }
    | (.ok app, cev) =>
      match save_config app file with
      | (.error e, sev, file2) =>
          { result := .error e, events := ev ++ cev ++ sev, file := file2 }
      | (.ok _, sev, file2) =>
          { result := .ok app, events := ev ++ cev ++ sev, file := file2 }

/-- `__init__` (lines 26-56).  The configuration directory and file
paths are abstracted into the `FS` state of the one configuration file.
Lines 33-37 raise `ValueError` when the directory or the file is
missing; line 39 loads the configuration; lines 41-43 raise `ValueError`
when both the stored `instance.base_url` and the `base_url` argument are
truthy (evaluating `self.config.instance.base_url` first, which itself
may raise `AttributeError`); lines 45-49 are the first-run branch with
its `assert` and the two assignments
`self.config["instance"] = AttribAccessDict()` and
`self.config["instance"]["base_url"] = base_url` (composed here into one
update storing the one-entry dict, since the assigned dict is freshly
created) followed by `self.register_app()`; lines 51-56 are
`finish_init`. -/
def init (fs : FS) (base_url : Option String) (lib : MastodonLib) : InitResult :=
  if fs.dirExists = false then
    { result := .error .valueError, events := [], file := fs.file }
  else
    match fs.file with
    | .absent => { result := .error .valueError, events := [], file := .absent }
    | .present doc =>
      match load_config doc with
      | .error e => { result := .error e, events := [], file := .present doc }
      | .ok config0 =>
        match getattr config0 "instance" with
        | .error e => { result := .error e, events := [], file := .present doc }
        | .ok inst =>
          match getattr inst "base_url" with
          | .error e => { result := .error e, events := [], file := .present doc }
          | .ok bu =>
            if truthy bu && truthyOpt base_url then
              { result := .error .valueError, events := [], file := .present doc }
            else
              match client_id_lookup config0 with
              | .error e => { result := .error e, events := [], file := .present doc }
              | .ok cid =>
                if truthy cid then
                  finish_init lib config0 [] (.present doc)
                else
                  match pyget config0 "instance" .null with
                  | .error e =>
                      { result := .error e, events := [], file := .present doc }
                  | .ok instCheck =>
                    if isNull instCheck then
                      let config1 :=
                        setKey config0 "instance"
                          (.map true [("base_url", optStr base_url)])
                      match register_app lib config1 with
                      | (.error e, rev) =>
                          { result := .error e, events := rev, file := .present doc }
                      | (.ok config2, rev) =>
                          finish_init lib config2 rev (.present doc)
                    else
                      { result := .error .assertionError, events := [],
                        file := .present doc }

/-- `get_statuses` (lines 123-176): fetch the authenticated account's
own statuses from the collaborator with the literal keyword arguments of
lines 164-174, returning the collaborator's list unmodified.  Reading
`self.mastodon`, `self.user` or `self.user.id` raises `AttributeError`
when unset. -/
def get_statuses (lib : MastodonLib) (app : App) (limit : Int) :
    Except PyErr (List Post) :=
  match app.mastodon, app.user with
  | some m, some u =>
    match getattr u "id" with
    | .error e => .error e
    | .ok uid =>
        lib.account_statuses m
          { id := uid, only_media := false, pinned := false,
            exclude_replies := true, exclude_reblogs := true,
            tagged := none, max_id := none, min_id := none,
            since_id := none, limit := limit }
  | _, _ => .error .attributeError

/-- `post_toot` (lines 200-215): submit the message via
`mastodon.status_post` with the message's text, reply target and
visibility, language hardcoded to "en", and no other arguments, and
return the created status dict unmodified. -/
def post_toot (lib : MastodonLib) (app : App) (message : Message) :
    Except PyErr Post :=
  match app.mastodon with
  | none => .error .attributeError
  | some m =>
      lib.status_post m
        { status := message.text, in_reply_to_id := message.in_reply_to_id,
          sensitive := none, visibility := message.visibility,
          spoiler_text := none, language := some "en", scheduled_at := none }

/-! ## Concrete fixtures

A collaborator whose operations all succeed, and concrete configuration
documents exercising the different branches of `__init__`. -/

/-- A collaborator oracle whose every operation succeeds. -/
def okLib : MastodonLib :=
  { register_application := fun _ => .ok ("cid-1", "secret-1"),
    log_in := fun _ _ => .ok (.str "token-1"),
    me := fun _ => .ok (.map true [("id", .int 1)]),
    account_statuses := fun _ _ => .ok [],
    status_post := fun _ _ => .ok .null }

/-- A fully populated configuration document: stored instance URL,
registered application credentials, and user credentials — the shape of
a configuration after a (hypothetical) successful first run. -/
def doc1 : YVal :=
  .map false
    [("instance", .map false [("base_url", .str "https://mastodon.example")]),
     ("application", .map false
       [("client_id", .str "abc123"), ("client_secret", .str "xyz789")]),
     ("user", .map false
       [("username", .str "bob"), ("password", .str "pw1")])]

/-- A configuration document with a `user` section but no `instance`
section (and no `application` section). -/
def doc3 : YVal :=
  .map false [("user", .map false [("username", .str "alice")])]

/-- A configuration document whose only content is a stored
`instance.base_url` (no `application` section yet). -/
def doc5 : YVal :=
  .map false [("instance", .map false [("base_url", .str "https://example.social")])]

/-- The object state reached by `__init__` just before `_save_config` on
the `doc1` run: configuration loaded (sections wrapped), `mastodon` and
`user` assigned by `connect`, and — as everywhere in the class — the
attribute `data` never assigned. -/
def app2 : App :=
  { config := .map true
      [("instance", .map true [("base_url", .str "https://mastodon.example")]),
       ("application", .map true
         [("client_id", .str "abc123"), ("client_secret", .str "xyz789")]),
       ("user", .map true
         [("username", .str "bob"), ("password", .str "pw1")])],
    mastodon := some { client_id := "my-application-clientcred.secret",
                       api_base_url := .str "https://mastodon.example" },
    user := some (.map true [("id", .int 1)]) }

/-- An object state as loaded from a configuration that stores an
instance URL and user credentials (`username = "alice"`,
`password = "hunter2"`), before `connect` runs. -/
def app4 : App :=
  { config := .map true
      [("instance", .map true [("base_url", .str "https://example.social")]),
       ("user", .map true
         [("username", .str "alice"), ("password", .str "hunter2")])] }

/-! ## Helper lemmas -/

/-- A successful `_load_config` always yields an `AttribAccessDict`. -/
theorem load_config_ok_shape {doc : Option YVal} {config : YVal}
    (h : load_config doc = .ok config) : ∃ es, config = .map true es := by
  cases doc with
  | none => exact ⟨[], by injection h with h; exact h.symm⟩
  | some v =>
    cases v with
    | map a es => exact ⟨_, by injection h with h; exact h.symm⟩
    | null => exact absurd h (by simp [load_config])
    | bool b => exact absurd h (by simp [load_config])
    | int n => exact absurd h (by simp [load_config])
    | str s => exact absurd h (by simp [load_config])
    | list xs => exact absurd h (by simp [load_config])

/-- Inverting a successful attribute access: the value is an
`AttribAccessDict` containing the key. -/
theorem getattr_ok {v : YVal} {k : String} {w : YVal}
    (h : getattr v k = .ok w) :
    ∃ es, v = .map true es ∧ lookupEntries es k = some w := by
  cases v with
  | map a es =>
    cases a with
    | false => exact absurd h (by simp [getattr])
    | true =>
      refine ⟨es, rfl, ?_⟩
      cases hl : lookupEntries es k with
      | none => rw [getattr, hl] at h; cases h
      | some w' => rw [getattr, hl] at h; injection h with h; rw [h]
  | null => exact absurd h (by simp [getattr])
  | bool b => exact absurd h (by simp [getattr])
  | int n => exact absurd h (by simp [getattr])
  | str s => exact absurd h (by simp [getattr])
  | list xs => exact absurd h (by simp [getattr])

/-- Looking up in entries whose values were wrapped is wrapping the
result of the original lookup. -/
theorem lookupEntries_map_wrapTop (es : List (String × YVal)) (k : String) :
    lookupEntries (es.map (fun kv => (kv.1, wrapTop kv.2))) k =
      (lookupEntries es k).map wrapTop := by
  induction es with
  | nil => rfl
  | cons kv rest ih =>
    rcases kv with ⟨k', v⟩
    by_cases h : k' = k <;> simp [lookupEntries, h, ih]

/-! ## Claim theorems -/

/-- C1: evaluation of the code at a failing input for the claim "for
every successful initialization run, the configuration file is written
exactly once, at the very end".  On a fully populated configuration
(`doc1`) with every collaborator call succeeding, `__init__` performs
the login (the single `loginCall` event) and then aborts inside
`_save_config` with `AttributeError` — `_save_config` serializes
`self.data`, an attribute that is never assigned — so the run raises,
no `fileWrite` event occurs, and the file keeps its pre-call contents.
The configuration file is therefore never written: no initialization
run succeeds. -/
theorem init_save_step_raises_and_never_writes :
    init ⟨true, .present (some doc1)⟩ none okLib =
      { result := .error .attributeError,
        events := [Event.loginCall
          { client_id := "my-application-clientcred.secret",
            api_base_url := .str "https://mastodon.example" } hardcoded_login],
        file := .present (some doc1) } := rfl

/-- C2: evaluation of the code at a failing input for the claim "saving
the configuration produced by a successful initialization and loading
it back is the identity, and the save is a full overwrite of the file
with the in-memory configuration".  `_save_config` dumps `self.data`,
not `self.config`; since no code in the class ever assigns the `data`
attribute, the save raises `AttributeError` on the very object state
`__init__` reaches before persisting (`app2`), writes nothing, and
leaves the file unchanged — so no save/load round trip exists. -/
theorem save_config_reads_unassigned_data_attribute :
    save_config app2 (.present (some doc1)) =
      (.error .attributeError, [], .present (some doc1)) := rfl

/-- C3: evaluation of the code at a failing input for the claim "with a
configuration that has no `instance` section, initialization proceeds
using the passed base URL".  On a configuration holding only a `user`
section, with a base URL passed, line 41 evaluates
`self.config.instance`, which raises `AttributeError` (the
`AttribAccessDict` has no `instance` entry); initialization aborts
before any collaborator call instead of proceeding. -/
theorem init_no_instance_section_raises :
    init ⟨true, .present (some doc3)⟩ (some "https://mastodon.example") okLib =
      { result := .error .attributeError, events := [],
        file := .present (some doc3) } := rfl

/-- C5: evaluation of the code at failing inputs for the claim "the
registration collaborator is invoked if and only if
`application.client_id` is absent".  Both first-run shapes abort before
`register_app` with an empty event trace (no `registerCall`): an empty
configuration file raises `AttributeError` at line 41 (`config.instance`
is absent), and a configuration that already stores `instance.base_url`
but has no `application` section fails the line-46
`assert config.get("instance") is None`.  Registration is unreachable:
whenever `application.client_id` is absent the run aborts without
invoking the registration collaborator. -/
theorem registration_is_unreachable :
    init ⟨true, .present none⟩ (some "https://example.social") okLib =
      { result := .error .attributeError, events := [],
        file := .present none } ∧
    init ⟨true, .present (some doc5)⟩ none okLib =
      { result := .error .assertionError, events := [],
        file := .present (some doc5) } := ⟨rfl, rfl⟩

/-- C4 counterexample: on a configuration storing
`user.username = "alice"` and `user.password = "hunter2"`, `connect`
passes the hardcoded literals `"<email>"`/`"<password>"` to the login
collaborator — not the stored credentials — refuting the claim that the
login step passes `user.username` and `user.password` from the
configuration. -/
theorem connect_passes_other_than_stored_credentials :
    (connect okLib app4).2 =
      [Event.loginCall
        { client_id := "my-application-clientcred.secret",
          api_base_url := .str "https://example.social" } hardcoded_login] ∧
    getattr app4.config "user" =
      .ok (.map true [("username", .str "alice"), ("password", .str "hunter2")]) ∧
    hardcoded_login.username ≠ "alice" ∧
    hardcoded_login.password ≠ "hunter2" :=
  ⟨rfl, rfl, by decide, by decide⟩

/-- C4 (amended): for every collaborator and object state whose
configuration resolves `instance.base_url`, `connect` issues exactly one
login call whose arguments are the literals hardcoded at lines 111-120
(`hardcoded_login` and the client-credential file name), not values read
from the configuration's `user` section, and when the login and the
`me()` call succeed with account `u`, the session stores the caller's
own account identity: the resulting object has `user = some u` and the
constructed handle as `mastodon`. -/
theorem connect_hardcoded_login_and_stores_identity
    (lib : MastodonLib) (app : App) (inst bu : YVal)
    (hi : getattr app.config "instance" = .ok inst)
    (hb : getattr inst "base_url" = .ok bu) :
    (connect lib app).2 =
      [Event.loginCall
        { client_id := "my-application-clientcred.secret", api_base_url := bu }
        hardcoded_login] ∧
    ∀ tok u,
      lib.log_in
        { client_id := "my-application-clientcred.secret", api_base_url := bu }
        hardcoded_login = .ok tok →
      lib.me
        { client_id := "my-application-clientcred.secret", api_base_url := bu } = .ok u →
      (connect lib app).1 =
        .ok { app with
              mastodon := some
                { client_id := "my-application-clientcred.secret", api_base_url := bu },
              user := some u } := by
  constructor
  · simp only [connect, hi, hb]
    cases hl : lib.log_in
        { client_id := "my-application-clientcred.secret", api_base_url := bu }
        hardcoded_login with
    | error e => rfl
    | ok tok =>
      cases hm : lib.me
          { client_id := "my-application-clientcred.secret", api_base_url := bu } with
      | error e => rfl
      | ok u => rfl
  · intro tok u hl hm
    simp only [connect, hi, hb, hl, hm]

/-- C4 witness: the amended theorem applied at the concrete state
`app4` and the all-succeeding collaborator. -/
theorem connect_hardcoded_login_witness :
    (connect okLib app4).2 =
      [Event.loginCall
        { client_id := "my-application-clientcred.secret",
          api_base_url := .str "https://example.social" } hardcoded_login] ∧
    ∀ tok u,
      okLib.log_in
        { client_id := "my-application-clientcred.secret",
          api_base_url := .str "https://example.social" }
        hardcoded_login = .ok tok →
      okLib.me
        { client_id := "my-application-clientcred.secret",
          api_base_url := .str "https://example.social" } = .ok u →
      (connect okLib app4).1 =
        .ok { app4 with
              mastodon := some
                { client_id := "my-application-clientcred.secret",
                  api_base_url := .str "https://example.social" },
              user := some u } :=
  connect_hardcoded_login_and_stores_identity okLib app4 _ _ rfl rfl

/-- C6: when the configuration directory does not exist, or the
configuration file does not exist inside it, `__init__` raises
`ValueError` (the spec's `ConfigurationError`) before any other step —
the event trace is empty, so no collaborator is called — and the
configuration file keeps its prior state: in particular no file is
created or written. -/
theorem init_missing_dir_or_file
    (fs : FS) (base_url : Option String) (lib : MastodonLib)
    (h : fs.dirExists = false ∨ fs.file = .absent) :
    init fs base_url lib =
      { result := .error .valueError, events := [], file := fs.file } := by
  rcases fs with ⟨d, f⟩
  rcases h with h | h
  · simp only at h
    subst h
    rfl
  · simp only at h
    subst h
    cases d <;> rfl

/-- C6 witness: the theorem applied at a directory that exists but
contains no configuration file. -/
theorem init_missing_dir_or_file_witness :
    init ⟨true, .absent⟩ none okLib =
      { result := .error .valueError, events := [], file := .absent } :=
  init_missing_dir_or_file ⟨true, .absent⟩ none okLib (Or.inr rfl)

/-- C7: for every loaded configuration in which `application.client_id`
is absent (the line-45 lookup yields `None`) but an `instance` section
is present, `__init__` aborts with an error before invoking
registration: the result is an exception and the event trace is empty —
in particular no `registerCall` — so the corrupted configuration is
never silently repaired. -/
theorem init_fails_fast_before_registration
    (doc : Option YVal) (base_url : Option String) (lib : MastodonLib)
    (config : YVal)
    (hload : load_config doc = .ok config)
    (hcid : client_id_lookup config = .ok .null)
    (hinst : hasKey config "instance" = true) :
    (∃ e, (init ⟨true, .present doc⟩ base_url lib).result = .error e) ∧
    (init ⟨true, .present doc⟩ base_url lib).events = [] := by
  obtain ⟨es, rfl⟩ := load_config_ok_shape hload
  cases hgi : getattr (.map true es) "instance" with
  | error e =>
    refine ⟨⟨e, ?_⟩, ?_⟩ <;> simp [init, hload, hgi]
  | ok inst =>
    cases hgb : getattr inst "base_url" with
    | error e =>
      refine ⟨⟨e, ?_⟩, ?_⟩ <;> simp [init, hload, hgi, hgb]
    | ok bu =>
      cases hc : truthy bu && truthyOpt base_url with
      | true =>
        refine ⟨⟨.valueError, ?_⟩, ?_⟩ <;> simp [init, hload, hgi, hgb, hc]
      | false =>
        obtain ⟨es', hes', hlook⟩ := getattr_ok hgi
        injection hes' with _ hes'
        subst hes'
        have hpg : pyget (.map true es) "instance" .null = .ok inst := by
          simp [pyget, hlook]
        obtain ⟨es2, rfl, _⟩ := getattr_ok hgb
        have hcond : ¬(truthy bu = true ∧ truthyOpt base_url = true) := by
          intro h12
          rw [h12.1, h12.2] at hc
          cases hc
        have htn : truthy YVal.null = false := rfl
        refine ⟨⟨.assertionError, ?_⟩, ?_⟩ <;>
          simp [init, hload, hgi, hgb, hcid, hpg, hcond, htn, isNull]

/-- C7 witness: the theorem applied at the configuration that stores
only `instance.base_url` (no `application` section). -/
theorem init_fails_fast_before_registration_witness :
    (∃ e, (init ⟨true, .present (some doc5)⟩ none okLib).result = .error e) ∧
    (init ⟨true, .present (some doc5)⟩ none okLib).events = [] :=
  init_fails_fast_before_registration (some doc5) none okLib _ rfl rfl rfl

/-- C8: for every positive limit, `get_statuses` requests the
authenticated account's own statuses from the collaborator with replies
excluded, reblogs excluded, no media-only or pinned restriction, no tag
filter, no max/min/since id bound, and the given limit, and returns the
collaborator's list unmodified; consequently, whenever the collaborator
honours the request's `limit` field, the result has at most `limit`
items. -/
theorem get_statuses_request_and_passthrough
    (lib : MastodonLib) (app : App) (m : MastodonInit) (u uid : YVal)
    (limit : Int) (hpos : 0 < limit)
    (hm : app.mastodon = some m) (hu : app.user = some u)
    (hid : getattr u "id" = .ok uid) :
    get_statuses lib app limit =
      lib.account_statuses m
        { id := uid, only_media := false, pinned := false,
          exclude_replies := true, exclude_reblogs := true,
          tagged := none, max_id := none, min_id := none,
          since_id := none, limit := limit } ∧
    (∀ posts,
      (∀ req ps, lib.account_statuses m req = .ok ps → ps.length ≤ req.limit.toNat) →
      get_statuses lib app limit = .ok posts → posts.length ≤ limit.toNat) := by
  have h1 : get_statuses lib app limit =
      lib.account_statuses m
        { id := uid, only_media := false, pinned := false,
          exclude_replies := true, exclude_reblogs := true,
          tagged := none, max_id := none, min_id := none,
          since_id := none, limit := limit } := by
    simp [get_statuses, hm, hu, hid]
  refine ⟨h1, ?_⟩
  intro posts hcontract hok
  exact hcontract _ posts (h1 ▸ hok)

/-- C8 witness: the request equation of the theorem applied at the
authenticated state `app2`, the all-succeeding collaborator and limit 5. -/
theorem get_statuses_request_witness :
    get_statuses okLib app2 5 =
      okLib.account_statuses
        { client_id := "my-application-clientcred.secret",
          api_base_url := .str "https://mastodon.example" }
        { id := .int 1, only_media := false, pinned := false,
          exclude_replies := true, exclude_reblogs := true,
          tagged := none, max_id := none, min_id := none,
          since_id := none, limit := 5 } :=
  (get_statuses_request_and_passthrough okLib app2 _ _ _ 5 (by decide)
    rfl rfl rfl).1

/-- C9: for every outgoing message, `post_toot` submits exactly the
message's text, reply-target id and visibility to the collaborator,
with the language fixed to the hardcoded "en" and the sensitivity flag,
spoiler text and scheduling arguments not supplied, and returns the
created status exactly as the collaborator returned it. -/
theorem post_toot_request_and_passthrough
    (lib : MastodonLib) (app : App) (m : MastodonInit) (message : Message)
    (hm : app.mastodon = some m) :
    post_toot lib app message =
      lib.status_post m
        { status := message.text, in_reply_to_id := message.in_reply_to_id,
          sensitive := none, visibility := message.visibility,
          spoiler_text := none, language := some "en",
          scheduled_at := none } := by
  simp [post_toot, hm]

/-- C9 witness: the theorem applied at the authenticated state `app2`
and the message "hello" with public visibility. -/
theorem post_toot_request_witness :
    post_toot okLib app2
      { text := "hello", in_reply_to_id := none, visibility := "public" } =
      okLib.status_post
        { client_id := "my-application-clientcred.secret",
          api_base_url := .str "https://mastodon.example" }
        { status := "hello", in_reply_to_id := none, sensitive := none,
          visibility := "public", spoiler_text := none, language := some "en",
          scheduled_at := none } :=
  post_toot_request_and_passthrough okLib app2 _
    { text := "hello", in_reply_to_id := none, visibility := "public" } rfl

/-- C10: `_load_config` wraps the document and exactly the top-level
values that are dicts into attribute-accessible dicts: looking up any
top-level key of the loaded configuration yields the original value
with only its outermost dict layer re-flagged (`wrapTop`); `wrapTop`
keeps a dict's entries verbatim — so every dict nested two or more
levels deep stays exactly the plain dict `yaml.safe_load` produced —
and leaves every non-dict value unchanged. -/
theorem load_config_wraps_only_top_level :
    (∀ (a : Bool) (es : List (String × YVal)),
      ∃ es2, load_config (some (.map a es)) = .ok (.map true es2) ∧
        ∀ k, lookupEntries es2 k = (lookupEntries es k).map wrapTop) ∧
    (∀ (a : Bool) (es : List (String × YVal)), wrapTop (.map a es) = .map true es) ∧
    (∀ v : YVal, isMap v = false → wrapTop v = v) := by
  refine ⟨?_, fun a es => rfl, ?_⟩
  · intro a es
    exact ⟨_, rfl, fun k => lookupEntries_map_wrapTop es k⟩
  · intro v hv
    cases v <;> first | rfl | exact absurd hv (by simp [isMap])

/-- C10 witness: the theorem applied at a two-level document and at a
non-dict value (discharging the non-dict hypothesis). -/
theorem load_config_wraps_only_top_level_witness :
    (∃ es2, load_config (some (.map false
        [("instance", .map false [("base_url", .str "https://a.example")]),
         ("marker", .str "x")])) = .ok (.map true es2) ∧
      ∀ k, lookupEntries es2 k =
        (lookupEntries
          [("instance", .map false [("base_url", .str "https://a.example")]),
           ("marker", .str "x")] k).map wrapTop) ∧
    wrapTop (.str "x") = .str "x" :=
  ⟨load_config_wraps_only_top_level.1 false
      [("instance", .map false [("base_url", .str "https://a.example")]),
       ("marker", .str "x")],
   load_config_wraps_only_top_level.2.2 (.str "x") rfl⟩

end MastodonPosting
